import Mathlib

/-!
Verification of the World Cup dashboard script (`data_visualization_a7.py`).

The script holds a fixed table of 22 tournament records, derives a
per-country win-count table with `value_counts`, and exposes five reactive
callbacks: `update_map` (the map figure), `display_wins` and `display_match`
(the two summary strings), and the two dropdown interlock callbacks.

We embed the non-presentation logic shallowly:
* the dataset is a `List Tournament`;
* the win-count table is rebuilt exactly as `value_counts` does it
  (count winner occurrences, one row per distinct winner, sorted by
  descending count; pandas leaves tie order implementation-defined and no
  property below depends on it);
* a figure is modelled by the trace data that matters to the spec
  (choropleth locations / z values / texts / colorscale, scattergeo text
  overlays, legend annotation texts); layout-only settings (margins, sizes,
  legend placement) are out of scope per the spec;
* fallible rendering is an `Except`: `go.Figure(...)` called with the
  keyword `dataset` (line 118 of the script) is not a valid `Figure`
  constructor property (`plotly` only accepts `data`, `layout`, `frames`,
  `skip_invalid`, and figure property paths; anything else raises), so the
  branch that reaches that call is modelled as `Except.error`.
-/

/-- One tournament record: a row of the script's `dataset` table. -/
structure Tournament where
  year : Nat
  winner : String
  runner_up : String
deriving DecidableEq, Repr

/-- The fixed 22-row dataset, zipping the script's `Year`, `Winner` and
`Runner-up` columns (lines 9–18). -/
def df : List Tournament := [
  ⟨1930, "Uruguay", "Argentina"⟩,
  ⟨1934, "Italy", "Czechoslovakia"⟩,
  ⟨1938, "Italy", "Hungary"⟩,
  ⟨1950, "Uruguay", "Brazil"⟩,
  ⟨1954, "Germany", "Hungary"⟩,
  ⟨1958, "Brazil", "Sweden"⟩,
  ⟨1962, "Brazil", "Czechoslovakia"⟩,
  ⟨1966, "England", "Germany"⟩,
  ⟨1970, "Brazil", "Italy"⟩,
  ⟨1974, "Germany", "Netherlands"⟩,
  ⟨1978, "Argentina", "Netherlands"⟩,
  ⟨1982, "Italy", "Germany"⟩,
  ⟨1986, "Argentina", "Germany"⟩,
  ⟨1990, "Germany", "Argentina"⟩,
  ⟨1994, "Brazil", "Italy"⟩,
  ⟨1998, "France", "Brazil"⟩,
  ⟨2002, "Brazil", "Germany"⟩,
  ⟨2006, "Italy", "France"⟩,
  ⟨2010, "Spain", "Netherlands"⟩,
  ⟨2014, "Germany", "Argentina"⟩,
  ⟨2018, "France", "Croatia"⟩,
  ⟨2022, "Argentina", "France"⟩]

/-- The `df["Winner"]` column. -/
def winners_col : List String := df.map (fun t => t.winner)

/-- One row of the derived win-count table. -/
structure WinEntry where
  country : String
  wins : Nat
deriving DecidableEq, Repr

/-- First occurrence of each string, in order of appearance (the distinct
values of a column). -/
def firstOccurrences : List String → List String
  | [] => []
  | c :: rest => c :: (firstOccurrences rest).filter (fun x => x ≠ c)

/-- Insert an entry into a list sorted by descending `wins`, after any
existing entry with the same count (stable). -/
def insertByWinsDesc (e : WinEntry) : List WinEntry → List WinEntry
  | [] => [e]
  | x :: xs => if e.wins > x.wins then e :: x :: xs else x :: insertByWinsDesc e xs

/-- Stable sort by descending `wins`. -/
def sortByWinsDesc (l : List WinEntry) : List WinEntry :=
  l.foldl (fun acc e => insertByWinsDesc e acc) []

/-- `win_counts = df["Winner"].value_counts()` (lines 22–23): one row per
distinct winning country with its occurrence count, ordered by descending
count (ties in an implementation-defined order that nothing depends on). -/
def win_counts : List WinEntry :=
  sortByWinsDesc ((firstOccurrences winners_col).map
    (fun c => ⟨c, winners_col.count c⟩))

/-- `map_country` (lines 26–31): the static two-entry name normalizer. -/
def map_country (country : String) : String :=
  if country = "Czechoslovakia" then "Czechia"
  else if country = "England" then "United Kingdom"
  else country

/-- The `Wins` values of the rows of `win_counts` whose `Country` equals
`c` — the pandas selection `win_counts.loc[win_counts["Country"] == c,
"Wins"].values`. -/
def winsValues (c : String) : List Nat :=
  (win_counts.filter (fun e => e.country == c)).map (fun e => e.wins)

/-- Python truthiness of an optional integer dropdown value
(`if selected_year:`). -/
def optNatTruthy : Option Nat → Bool
  | none => false
  | some n => n != 0

/-- Python truthiness of an optional string dropdown value
(`if not selected_country:`). -/
def optStrTruthy : Option String → Bool
  | none => false
  | some s => s != ""

/-- The colouring of a choropleth trace: either a fixed discrete colorscale
(`[[0, c], [1, c]]`) or the continuous scale `px.choropleth` derives from
the `Wins` column. -/
inductive ColorSpec where
  | fixed (c : String)
  | continuousWins
deriving DecidableEq, Repr

/-- The spec-relevant fields of a `go.Choropleth` trace. -/
structure ChoroTrace where
  locations : List String
  z : List Nat
  text : List String
  color : ColorSpec
  name : String
  showscale : Bool
deriving DecidableEq, Repr

/-- The spec-relevant fields of a `go.Scattergeo` text-overlay trace. -/
structure GeoTextTrace where
  locations : List String
  text : List String
deriving DecidableEq, Repr

/-- A figure trace. -/
inductive Trace where
  | choropleth (t : ChoroTrace)
  | scattergeo (t : GeoTextTrace)
deriving DecidableEq, Repr

/-- A figure: its trace list and the texts of its custom annotations. -/
structure Fig where
  data : List Trace
  annots : List String
deriving DecidableEq, Repr

instance {ε α : Type} [DecidableEq ε] [DecidableEq α] : DecidableEq (Except ε α) :=
  fun x y =>
  match x, y with
  | Except.ok a, Except.ok b =>
      if h : a = b then isTrue (h ▸ rfl) else isFalse (fun hh => h (Except.ok.inj hh))
  | Except.error a, Except.error b =>
      if h : a = b then isTrue (h ▸ rfl) else isFalse (fun hh => h (Except.error.inj hh))
  | Except.ok _, Except.error _ => isFalse (fun hh => Except.noConfusion hh)
  | Except.error _, Except.ok _ => isFalse (fun hh => Except.noConfusion hh)

/-- The error raised by `go.Figure(dataset=[...])` on line 118: `dataset`
is not a `Figure` constructor keyword (the traces belong under `data`), so
plotly rejects it instead of building the figure. -/
def figureDatasetError : String := "invalid Figure property: dataset"

/-- The figure produced by the two `px.choropleth` branches (lines 138–189):
one choropleth trace over the mapped countries of `filtered`, coloured
continuously by `Wins`, plus a `Scattergeo` overlay printing each row's
win count. -/
def pxWinsFigure (filtered : List WinEntry) : Fig :=
  let locs := filtered.map (fun e => map_country e.country)
  { data := [
      Trace.choropleth ⟨locs, filtered.map (fun e => e.wins), [],
        ColorSpec.continuousWins, "", true⟩,
      Trace.scattergeo ⟨locs, filtered.map (fun e => toString e.wins)⟩],
    annots := [] }

/-- `update_map` (lines 81–213). Branch 1 (`if selected_year:`): look up the
matching row; if found, the script builds the navy winner trace and the grey
runner-up trace and then calls `go.Figure(dataset=[trace_winner,
trace_runnerup])` — an invalid keyword, so the call raises and the branch is
an error; if no row matches, `fig = go.Figure()` is empty. Branch 2
(`elif selected_country != "All winners"`, which is also taken when the
country is unset, since `None != "All winners"`): `px.choropleth` over the
rows of `win_counts` matching the selection. Branch 3 (the `"All winners"`
sentinel): `px.choropleth` over all of `win_counts`. -/
def update_map (selected_country : Option String) (selected_year : Option Nat) :
    Except String Fig :=
  if optNatTruthy selected_year then
    let y := selected_year.getD 0
    match df.find? (fun t => t.year == y) with
    | some _ => Except.error figureDatasetError
    | none => Except.ok { data := [], annots := [] }
  else if selected_country ≠ some "All winners" then
    Except.ok (pxWinsFigure
      (win_counts.filter (fun e => some e.country == selected_country)))
  else
    Except.ok (pxWinsFigure win_counts)

/-- Total number of region entries (choropleth locations) emitted by a
resolver result. -/
def numRegions (r : Except String Fig) : Nat :=
  match r with
  | Except.error _ => 0
  | Except.ok f =>
      (f.data.filterMap (fun t =>
        match t with
        | Trace.choropleth c => some c.locations.length
        | Trace.scattergeo _ => none)).sum

/-- `display_wins` (lines 221–227): the country summary string. -/
def display_wins (selected_country : Option String) : String :=
  if selected_country = some "All winners" then ""
  else if ¬ optStrTruthy selected_country then ""
  else
    let c := selected_country.getD ""
    match (winsValues c).head? with
    | some w => s!"{c} has won the World Cup {w} times."
    | none => s!"{c} has never won the World Cup."

/-- `display_match` (lines 234–241): the year summary string. -/
def display_match (selected_year : Option Nat) : String :=
  if ¬ optNatTruthy selected_year then ""
  else
    let y := selected_year.getD 0
    match df.find? (fun t => t.year == y) with
    | some t =>
        s!"In {y}, {t.winner} won the World Cup, and {t.runner_up} was the runner-up."
    | none => "No data available for the selected year."

/-- `disable_year_dropdown` (lines 248–249):
`False if selected_country is None else True`. -/
def disable_year_dropdown (selected_country : Option String) : Bool :=
  match selected_country with
  | none => false
  | some _ => true

/-- `disable_country_dropdown` (lines 256–257):
`False if selected_year is None else True`. -/
def disable_country_dropdown (selected_year : Option Nat) : Bool :=
  match selected_year with
  | none => false
  | some _ => true

/-- The country dropdown's initial value (line 45): `value="All winners"`. -/
def country_dropdown_default : Option String := some "All winners"

/-! ## Claims -/

/-- Claim C1: the spec says the year view returns a figure with exactly two
choropleth traces (winner navy, runner-up grey) plus a legend annotation.
The code instead raises for every one of the 22 dataset years: line 118
passes the two traces to `go.Figure` under the invalid keyword `dataset`
(instead of `data`), which plotly rejects. -/
theorem update_map_year_view_raises :
    ∀ y ∈ df.map (fun t => t.year),
      update_map (some "All winners") (some y) = Except.error figureDatasetError := by
  decide

theorem update_map_year_view_raises_witness :
    update_map (some "All winners") (some 1966) = Except.error figureDatasetError :=
  update_map_year_view_raises 1966 (by decide)

/-- Claim C2: the spec says the resolver never raises, but the reachable
state "country cleared, year 1930 selected" hits the invalid
`go.Figure(dataset=...)` call and raises. -/
theorem update_map_raises_on_reachable_year_state :
    update_map none (some 1930) = Except.error figureDatasetError := by
  decide

/-- Claim C3 (counterexample): with no year selected and the country unset
(`None`), the resolver does not emit one region per win-count entry — the
branch `selected_country != "All winners"` also captures `None`, so it
emits an empty region list. -/
theorem update_map_unset_country_no_regions :
    ¬ numRegions (update_map none none) = win_counts.length := by
  decide

/-- Claim C3 (amended): with no year selected and the country equal to the
`"All winners"` sentinel, the resolver emits one region entry per country in
the win-count table, coloured on a continuous scale by win count, with a
text overlay of every country's count; with the country unset (`None`) it
instead emits the specific-country branch's empty trace pair. -/
theorem update_map_all_view :
    update_map (some "All winners") none = Except.ok
      { data := [
          Trace.choropleth ⟨win_counts.map (fun e => map_country e.country),
            win_counts.map (fun e => e.wins), [], ColorSpec.continuousWins, "", true⟩,
          Trace.scattergeo ⟨win_counts.map (fun e => map_country e.country),
            win_counts.map (fun e => toString e.wins)⟩],
        annots := [] } ∧
    win_counts.map (fun e => map_country e.country) =
      ["Brazil", "Italy", "Germany", "Argentina", "Uruguay", "France",
       "United Kingdom", "Spain"] ∧
    win_counts.map (fun e => e.wins) = [5, 4, 4, 3, 2, 2, 1, 1] ∧
    update_map none none = Except.ok
      { data := [Trace.choropleth ⟨[], [], [], ColorSpec.continuousWins, "", true⟩,
                 Trace.scattergeo ⟨[], []⟩],
        annots := [] } := by
  refine ⟨by decide, by decide, by decide, by decide⟩

/-- Claim C4: the win-count table's counts sum to 22, and every country in
the winner column has exactly one entry, whose count is the number of
tournaments that country won. -/
theorem win_counts_invariant :
    (win_counts.map (fun e => e.wins)).sum = 22 ∧
    ∀ c ∈ winners_col, winsValues c = [winners_col.count c] := by
  decide

theorem win_counts_invariant_witness :
    (win_counts.map (fun e => e.wins)).sum = 22 ∧
    winsValues "Brazil" = [winners_col.count "Brazil"] :=
  ⟨win_counts_invariant.1, win_counts_invariant.2 "Brazil" (by decide)⟩

/-- Claim C5 (counterexample): the all-winners view does not emit 13
regions. -/
theorem all_view_regions_not_13 :
    ¬ numRegions (update_map (some "All winners") none) = 13 := by
  decide

/-- Claim C5 (amended): in the all-winners view, the number of emitted
regions equals the number of distinct winning countries in the dataset,
which is 8 (not 13). -/
theorem all_view_region_count :
    numRegions (update_map (some "All winners") none) =
      (firstOccurrences winners_col).length ∧
    (firstOccurrences winners_col).length = 8 := by
  decide

/-- Claim C6 (counterexample): the win string carries a trailing period, so
for Brazil (5 wins in the table) the claimed template
"Brazil has won the World Cup 5 times" is not returned. -/
theorem display_wins_period_counterexample :
    winsValues "Brazil" = [5] ∧
    ¬ display_wins (some "Brazil") = "Brazil has won the World Cup 5 times" := by
  decide

/-- Claim C6 (amended): the country summary is `""` for an unset country or
the `"All winners"` sentinel; for a country with an entry of `w` wins it is
"<country> has won the World Cup <w> times." (with trailing period), and for
a country without an entry it is "<country> has never won the World Cup." -/
theorem display_wins_spec (c : String) :
    display_wins none = "" ∧
    display_wins (some "All winners") = "" ∧
    (∀ w, (winsValues c).head? = some w → c ≠ "All winners" → c ≠ "" →
      display_wins (some c) = s!"{c} has won the World Cup {w} times.") ∧
    ((winsValues c).head? = none → c ≠ "All winners" → c ≠ "" →
      display_wins (some c) = s!"{c} has never won the World Cup.") := by
  refine ⟨rfl, rfl, ?_, ?_⟩
  · intro w hw hall hne
    simp [display_wins, optStrTruthy, hall, hne, hw]
  · intro hw hall hne
    simp [display_wins, optStrTruthy, hall, hne, hw]

theorem display_wins_spec_witness :
    display_wins (some "Netherlands") = "Netherlands has never won the World Cup." :=
  (display_wins_spec "Netherlands").2.2.2 (by decide) (by decide) (by decide)

/-- Claim C7 (counterexample): the match string carries a trailing period,
so for 2022 the claimed template "In 2022, Argentina won the World Cup, and
France was the runner-up" is not returned. -/
theorem display_match_period_counterexample :
    ¬ display_match (some 2022) =
      "In 2022, Argentina won the World Cup, and France was the runner-up" := by
  decide

/-- Claim C7 (amended): the year summary is `""` for an unset year; when the
year matches a tournament record it is "In <year>, <winner> won the World
Cup, and <runner-up> was the runner-up." (with trailing period); otherwise
it is "No data available for the selected year." -/
theorem display_match_spec (y : Nat) :
    display_match none = "" ∧
    (∀ t, df.find? (fun r => r.year == y) = some t →
      display_match (some y) =
        s!"In {y}, {t.winner} won the World Cup, and {t.runner_up} was the runner-up.") ∧
    ((∀ t ∈ df, t.year ≠ y) → y ≠ 0 →
      display_match (some y) = "No data available for the selected year.") := by
  refine ⟨rfl, ?_, ?_⟩
  · intro t hfind
    have ht : t ∈ df := List.mem_of_find?_eq_some hfind
    have hy : t.year = y := by simpa using List.find?_some hfind
    have hpos : t.year ≠ 0 := by
      have hall : ∀ r ∈ df, r.year ≠ 0 := by decide
      exact hall t ht
    have hy0 : y ≠ 0 := hy ▸ hpos
    simp [display_match, optNatTruthy, hy0, hfind]
  · intro hnone hy0
    have hfind : df.find? (fun r => r.year == y) = none := by
      rw [List.find?_eq_none]
      intro t ht
      simpa using hnone t ht
    simp [display_match, optNatTruthy, hy0, hfind]

theorem display_match_spec_witness :
    display_match (some 2022) =
      "In 2022, Argentina won the World Cup, and France was the runner-up." :=
  (display_match_spec 2022).2.1 ⟨2022, "Argentina", "France"⟩ (by decide)

/-- Claim C8: selecting a (truthy) year that matches no tournament record
yields the empty figure — no traces, no annotations — rather than a
failure. -/
theorem update_map_unmatched_year (c : Option String) (y : Nat) (hy : y ≠ 0)
    (h : ∀ t ∈ df, t.year ≠ y) :
    update_map c (some y) = Except.ok { data := [], annots := [] } := by
  have hfind : df.find? (fun t => t.year == y) = none := by
    rw [List.find?_eq_none]
    intro t ht
    simpa using h t ht
  simp [update_map, optNatTruthy, hy, hfind]

theorem update_map_unmatched_year_witness :
    update_map none (some 1900) = Except.ok { data := [], annots := [] } :=
  update_map_unmatched_year none 1900 (by decide) (by decide)

/-- Claim C9: each disable callback returns `false` exactly on `None` and
`true` on any set value, so a set-then-clear round trip restores the
enabled state. -/
theorem dropdown_interlock (c : Option String) (y : Option Nat) :
    disable_year_dropdown c = c.isSome ∧
    disable_country_dropdown y = y.isSome ∧
    disable_year_dropdown none = false ∧
    disable_country_dropdown none = false := by
  cases c <;> cases y <;>
    simp [disable_year_dropdown, disable_country_dropdown]

/-- Claim C10: the year dropdown's disable callback returns `true` for every
set country value, the `"All winners"` sentinel included; since the country
dropdown defaults to `"All winners"`, the year dropdown starts disabled. -/
theorem year_dropdown_disabled_initially :
    (∀ c : String, disable_year_dropdown (some c) = true) ∧
    country_dropdown_default = some "All winners" ∧
    disable_year_dropdown country_dropdown_default = true :=
  ⟨fun _ => rfl, rfl, rfl⟩
